import Mathlib

/-!
Shallow embedding of the outbox-relay polling publisher
(src/outbox-relay/src/relay/polling_publisher.py) together with the
external collaborators it drives (the durable store's filtered/sorted/
limited query, the broker publish outcome, the state file).

Conventions of the embedding:
* Python datetimes are modelled as natural numbers; `isoformat` /
  `fromisoformat` are modelled as a decimal printer / parser pair.
* JSON values are the inductive `JVal`; a state file on disk is
  `Option FileRead`: `none` for a missing file, `some .malformed` for
  content `json.loads` rejects, `some (.parsed j)` for content parsing
  to `j`.
* Exceptions are `Except PyError`; an operation wrapped by the code in
  try/except is split into an `..._attempt` function returning
  `Except` plus the catching wrapper.
* `items_processed` is typed `Int` following the module's own
  annotation `items_processed: int = 0`.
-/

namespace OutboxRelay

/-- Python exception classes that occur in the modelled paths. -/
inductive PyError where
  | attributeError
  | keyError
  | valueError
  | typeError
  | ioError
  deriving Repr, DecidableEq

/-- A JSON value, the result of `json.loads` on well-formed content. -/
inductive JVal where
  | null
  | jbool (b : Bool)
  | jnum (n : Int)
  | jstr (s : String)
  | jarr (xs : List JVal)
  | jobj (fields : List (String × JVal))
  deriving Repr

/-- First value bound to `k` in a JSON object's field list
(Python `dict` access; later duplicates shadowed as in `json.loads`
is irrelevant here since we look up the first match of a list we
construct without duplicates). -/
def lookupField (fields : List (String × JVal)) (k : String) : Option JVal :=
  match fields with
  | [] => none
  | (k2, v) :: rest => if k2 = k then some v else lookupField rest k

/-- Python truthiness of a JSON-decoded value (`if state["last_update"]`). -/
def jFalsy : JVal → Bool
  | .null => true
  | .jbool b => !b
  | .jnum n => n = 0
  | .jstr s => s.isEmpty
  | .jarr xs => xs.isEmpty
  | .jobj fs => fs.isEmpty

/-- Datetimes are modelled as naturals (an instant on a discrete clock). -/
abbrev DateTime := Nat

/-- Digit character (`'0'`-based) for a decimal digit. -/
def digitChar (n : Nat) : Char := Char.ofNat (48 + n)

/-- Numeric value of a decimal digit character. -/
def digitVal (c : Char) : Nat := c.toNat - 48

/-- Whether a character is a decimal digit. -/
def isDigitChar (c : Char) : Bool := 48 ≤ c.toNat && c.toNat ≤ 57

/-- Model of `datetime.isoformat`: prints the instant in decimal.
(The concrete ISO-8601 text is abstracted to the decimal rendering of
the modelled instant; what the claims use is that it is a non-empty
string that `fromisoformat` maps back to the same instant.) -/
def isoformat (d : DateTime) : String :=
  if d = 0 then "0" else String.mk ((Nat.digits 10 d).reverse.map digitChar)

/-- Model of `datetime.fromisoformat`: accepts exactly the decimal
renderings, recovering the instant; raises (here: `none`) on any other
string. -/
def fromisoformat (s : String) : Option DateTime :=
  if s.data ≠ [] ∧ s.data.all isDigitChar = true then
    some (Nat.ofDigits 10 ((s.data.map digitVal).reverse))
  else none

/-- The relay's in-memory progress counters
(`items_processed`, `last_update` of `PollingPublisher`). -/
structure RelayState where
  items_processed : Int
  last_update : Option DateTime
  deriving Repr, DecidableEq

/-- The initial class attribute values: `items_processed: int = 0`,
`last_update: datetime = None`. -/
def freshState : RelayState := { items_processed := 0, last_update := none }

/-- Content of the state file as the relay's loader sees it:
either content `json.loads` rejects, or the parsed JSON value. -/
inductive FileRead where
  | malformed
  | parsed (j : JVal)
  deriving Repr

/-- The JSON object `save_state` serialises:
`{"items_processed": ..., "last_update": iso-or-null}`. -/
def serializeState (st : RelayState) : JVal :=
  .jobj [("items_processed", .jnum st.items_processed),
         ("last_update", match st.last_update with
                         | some d => .jstr (isoformat d)
                         | none => .null)]

/-- The body of `save_state`'s try block: open the file for writing and
write the serialised state; an I/O failure raises. `ok` is whether the
write succeeds. -/
def save_state_attempt (ok : Bool) (st : RelayState) :
    Except PyError (Option FileRead) :=
  if ok then .ok (some (.parsed (serializeState st))) else .error .ioError

/-- Function `save_state`: attempts the write, catches every exception
(logging it), leaving the file as it was on failure. -/
def save_state (ok : Bool) (st : RelayState) (file : Option FileRead) :
    Option FileRead :=
  match save_state_attempt ok st with
  | .ok f => f
  | .error _ => file

/-- The body of `load_state`'s try block, given that the file exists
with content `f` and the in-memory fields currently hold `prior`.
On an exception the error carries the fields as assigned so far,
since `self.items_processed = ...` executes before
`self.last_update = ...` and a raise in between leaves the first
assignment in place. Following the module's `items_processed: int`
annotation, the value `state.get("items_processed", 0)` is represented
for integer-valued (or absent) fields; `fromisoformat` on a non-string
truthy value raises `TypeError`. -/
def load_state_attempt (prior : RelayState) (f : FileRead) :
    Except (PyError × RelayState) RelayState :=
  match f with
  | .malformed => .error (.valueError, prior)
  | .parsed j =>
    match j with
    | .jobj fields =>
      let ip : Int := match lookupField fields "items_processed" with
                      | some (.jnum n) => n
                      | _ => 0
      let st1 : RelayState := { prior with items_processed := ip }
      match lookupField fields "last_update" with
      | none => .error (.keyError, st1)
      | some v =>
        if jFalsy v then .ok { items_processed := ip, last_update := none }
        else
          match v with
          | .jstr s =>
            match fromisoformat s with
            | some d => .ok { items_processed := ip, last_update := some d }
            | none => .error (.valueError, st1)
          | _ => .error (.typeError, st1)
    | _ => .error (.attributeError, prior)

/-- Function `load_state`: if the file does not exist, log and leave the fields
untouched; otherwise run the try block and catch every exception,
keeping whatever fields it assigned before raising. Never raises. -/
def load_state (prior : RelayState) (file : Option FileRead) : RelayState :=
  match file with
  | none => prior
  | some f =>
    match load_state_attempt prior f with
    | .ok st => st
    | .error (_, st) => st

/-- An outbox record as kept in the durable store's `auction_items`
index: the document id plus the fields of the producer's mapping
(`title`, `description`, `price`, `created_at`, `outbox_sent`).
`price` is the integer the producer writes; `created_at` is the
creation instant. -/
structure OutboxRecord where
  id : String
  title : String
  description : String
  price : Int
  created_at : DateTime
  outbox_sent : Bool
  deriving Repr, DecidableEq

/-- The durable store: the set of documents of the index, as a list. -/
abbrev Store := List OutboxRecord

/-- Model of the store query built in `process_outbox`:
`{"query": {"term": {"outbox_sent": False}}, "sort": [{"created_at": "asc"}],
"size": POLLING_LIMIT}` — the documents whose `outbox_sent` equals
`false`, sorted ascending by `created_at` (stably), truncated to
`limit` hits. A search reads the store and returns hits; it does not
change the store. -/
def esSearchUnsent (store : Store) (limit : Nat) : List OutboxRecord :=
  ((store.filter (fun r => r.outbox_sent = false)).mergeSort
      (fun a b => a.created_at ≤ b.created_at)).take limit

/-- Model of the store update issued in `process_outbox`:
`es.update(index=INDEX_NAME, id=id, body={"doc": {"outbox_sent": True}})`
— the partial update writing `outbox_sent = true` on the document with
the given id, leaving every other field and document alone. -/
def markSent (store : Store) (id : String) : Store :=
  store.map (fun r => if r.id = id then { r with outbox_sent := true } else r)

/-- The outbound message built per record:
`json.dumps({"id": id, "title": title, "created_at": created_at})`. -/
structure OutMessage where
  id : String
  title : String
  created_at : DateTime
  deriving Repr, DecidableEq

def buildMessage (r : OutboxRecord) : OutMessage :=
  { id := r.id, title := r.title, created_at := r.created_at }

/-- Outcomes of the external calls during one poll cycle:
whether the broker accepts the publish for a given record id, whether
the store update for a given id succeeds, whether the state-file write
succeeds, and the instant `datetime.now()` returns. `false` outcomes
model the corresponding call raising. -/
structure Env where
  publishOk : String → Bool
  updateOk : String → Bool
  saveOk : Bool
  now : DateTime

/-- Everything one poll cycle can touch or emit: the durable store,
the in-memory counters, the state file, plus event traces — the ids
whose try block was entered (publish attempted), the messages the
broker accepted, and the states passed to `save_state`. -/
structure RelayWorld where
  store : Store
  state : RelayState
  file : Option FileRead
  attempted : List String
  published : List OutMessage
  saves : List RelayState
  deriving Repr

/-- The body of the `for hit in res` loop for one record `r`: build the
message, then inside try/except publish it, mark the document sent,
increment `items_processed`, set `last_update` to now, and save state;
any exception from publish or update is caught and skips the rest of
the body for this record only. -/
def processRecord (env : Env) (w : RelayWorld) (r : OutboxRecord) : RelayWorld :=
  let w1 := { w with attempted := w.attempted ++ [r.id] }
  if env.publishOk r.id then
    let w2 := { w1 with published := w1.published ++ [buildMessage r] }
    if env.updateOk r.id then
      let st2 : RelayState :=
        { items_processed := w2.state.items_processed + 1,
          last_update := some env.now }
      { w2 with store := markSent w2.store r.id,
                state := st2,
                file := save_state env.saveOk st2 w2.file,
                saves := w2.saves ++ [st2] }
    else w2
  else w1

/-- Function `process_outbox`: query the store once for up to `limit` unsent
records, then run the per-record body over the returned hits in
order. -/
def process_outbox (env : Env) (limit : Nat) (w : RelayWorld) : RelayWorld :=
  (esSearchUnsent w.store limit).foldl (processRecord env) w

/-! Lifecycle: `start` assigns `self.connection`, then `self.channel`,
then `self.exchange`; the class body assigns `scheduler` and `es` at
class level, so those attributes always exist, while the three handles
exist only once the corresponding `start` step has completed. -/

/-- Which instance attributes of the publisher have been assigned.
`connection`, `channel`, `exchange` are bare class-level annotations in
the source, so they are unset until `start` assigns them. -/
structure Handles where
  connection : Bool
  channel : Bool
  exchange : Bool
  deriving Repr, DecidableEq

/-- Where `start` raised, when it did not complete: at
`aio_pika.connect_robust`, at `connection.channel()`, or at
`channel.declare_exchange`. -/
inductive StartFailure where
  | atConnect
  | atChannel
  | atDeclareExchange
  deriving Repr, DecidableEq

/-- The attributes assigned after running `start` up to the given
failure point (or to completion): each step assigns its attribute only
after the awaited call returned. -/
def startHandles : Option StartFailure → Handles
  | some .atConnect => { connection := false, channel := false, exchange := false }
  | some .atChannel => { connection := true, channel := false, exchange := false }
  | some .atDeclareExchange => { connection := true, channel := true, exchange := false }
  | none => { connection := true, channel := true, exchange := true }

/-- The operations `stop` performs, in source order. -/
inductive StopAction where
  | saveState
  | closeChannel
  | closeConnection
  | closeEs
  | shutdownScheduler
  deriving Repr, DecidableEq

/-- Method `stop`: first `save_state()` (which catches internally and cannot raise),
then `channel.close()`, `connection.close()`, `es.close()`,
`scheduler.shutdown()` in that order. Accessing an attribute `start`
never assigned raises `AttributeError`, aborting the remaining steps.
The scheduler step always faults: the scheduler was started only when
`start` got past `declare_exchange` (the steps after it cannot raise),
and APScheduler 3.x `AsyncIOScheduler.shutdown` is a synchronous
method whose event-loop wrapper returns `None` — so after a full
`start` the `await` of that `None` raises `TypeError`, while with the
scheduler never started the wrapper raises `AttributeError` on its
still-unset event loop. The returned pair is the trace of operations
entered and the uncaught exception, if any. -/
def stop (h : Handles) : List StopAction × Option PyError :=
  if h.channel = false then
    ([.saveState], some .attributeError)
  else if h.connection = false then
    ([.saveState, .closeChannel], some .attributeError)
  else if h.exchange = false then
    ([.saveState, .closeChannel, .closeConnection, .closeEs,
      .shutdownScheduler], some .attributeError)
  else
    ([.saveState, .closeChannel, .closeConnection, .closeEs,
      .shutdownScheduler], some .typeError)

/-- Whether a JSON value is an object (a Python `dict`). -/
def isJObj : JVal → Bool
  | .jobj _ => true
  | _ => false

/-- The frame relation of one store document across a relay operation:
`id`, `title`, `description`, `price`, `created_at` are unchanged, and
`outbox_sent` is either unchanged or has gone from `false` to `true`.
-/
def recordFrame (r s : OutboxRecord) : Prop :=
  s.id = r.id ∧ s.title = r.title ∧ s.description = r.description ∧
  s.price = r.price ∧ s.created_at = r.created_at ∧
  (s.outbox_sent = r.outbox_sent ∨
    (r.outbox_sent = false ∧ s.outbox_sent = true))

/-! Helper lemmas about the datetime rendering. -/

theorem digitVal_digitChar {k : Nat} (h : k < 10) : digitVal (digitChar k) = k := by
  interval_cases k <;> decide

theorem isDigitChar_digitChar {k : Nat} (h : k < 10) :
    isDigitChar (digitChar k) = true := by
  interval_cases k <;> decide

theorem fromisoformat_isoformat (d : DateTime) :
    fromisoformat (isoformat d) = some d := by
  unfold isoformat
  by_cases h0 : d = 0
  · subst h0
    simp only [if_pos rfl]
    decide
  · rw [if_neg h0]
    have hdig : ∀ x ∈ Nat.digits 10 d, x < 10 := fun x hx =>
      Nat.digits_lt_base (by norm_num) hx
    have hne : Nat.digits 10 d ≠ [] := Nat.digits_ne_nil_iff_ne_zero.mpr h0
    have hdata : (String.mk ((Nat.digits 10 d).reverse.map digitChar)).data
        = (Nat.digits 10 d).reverse.map digitChar := rfl
    unfold fromisoformat
    rw [if_pos]
    · congr 1
      rw [hdata, List.map_map]
      have : ((Nat.digits 10 d).reverse.map (digitVal ∘ digitChar))
          = (Nat.digits 10 d).reverse := by
        apply List.map_congr_left ?_ |>.trans (List.map_id _)
        intro x hx
        exact digitVal_digitChar (hdig x (List.mem_reverse.mp hx))
      rw [this, List.reverse_reverse, Nat.ofDigits_digits]
    · constructor
      · rw [hdata]
        simp [hne]
      · rw [hdata, List.all_eq_true]
        intro c hc
        rcases List.mem_map.mp hc with ⟨x, hx, rfl⟩
        exact isDigitChar_digitChar (hdig x (List.mem_reverse.mp hx))

theorem isoformat_isEmpty_false (d : DateTime) : (isoformat d).isEmpty = false := by
  unfold isoformat
  by_cases h0 : d = 0
  · subst h0; decide
  · rw [if_neg h0]
    have hne : Nat.digits 10 d ≠ [] := Nat.digits_ne_nil_iff_ne_zero.mpr h0
    rw [Bool.eq_false_iff, Ne, String.isEmpty_iff]
    intro hcontra
    have : (Nat.digits 10 d).reverse.map digitChar = [] := congrArg String.data hcontra
    simp [hne] at this

/-! State store: round-trip and failure behaviour. -/

/-- Claim C6: save-then-load round-trip.
For every relay state (any `items_processed` value and any
`last_update`, present or absent) and any prior in-memory fields,
loading the file `save_state` wrote yields the identical
`items_processed`/`last_update` pair. -/
theorem state_roundtrip (prior st : RelayState) :
    load_state prior (some (.parsed (serializeState st))) = st := by
  cases st with
  | mk ip lu =>
    cases lu with
    | none =>
      simp [load_state, load_state_attempt, serializeState, lookupField, jFalsy]
    | some d =>
      simp [load_state, load_state_attempt, serializeState, lookupField, jFalsy,
            isoformat_isEmpty_false, fromisoformat_isoformat]

/-- Counterexample to claim C7: the state file content
`{"items_processed": 5}` is malformed (the mandatory `last_update` key
is missing), loading it raises no error to the caller, yet at a fresh
start the loaded `items_processed` is `5`, not `0`: the field was
assigned before `state["last_update"]` raised `KeyError`. -/
theorem load_state_malformed_partial_counterexample :
    (load_state freshState
        (some (.parsed (.jobj [("items_processed", .jnum 5)])))).items_processed
      = 5 ∧ (5 : Int) ≠ 0 := by
  constructor
  · rfl
  · decide

/-- Claim C7 (amended): loading state never raises to the caller (every
exception of the try body is caught, which the model renders by
`load_state` being total with an explicit catch); for a missing file,
for content the JSON parser rejects, and for content parsing to a
non-object, the in-memory fields are left untouched — so
`items_processed = 0` and `last_update` absent at a fresh start. A
file parsing to a JSON object may be applied partially:
`items_processed` is assigned before `last_update` is examined. -/
theorem load_state_benign_failure (prior : RelayState) (f : Option FileRead)
    (h : f = none ∨ f = some .malformed ∨
      ∃ j, f = some (.parsed j) ∧ isJObj j = false) :
    load_state prior f = prior := by
  rcases h with rfl | rfl | ⟨j, rfl, hj⟩
  · rfl
  · rfl
  · cases j <;> simp_all [load_state, load_state_attempt, isJObj]

/-- Witness for the amended C7 theorem at the concrete input of a file
whose content the JSON parser rejects, loaded at a fresh start. -/
theorem load_state_benign_failure_witness :
    load_state freshState (some .malformed) = freshState :=
  load_state_benign_failure freshState (some .malformed) (Or.inr (Or.inl rfl))

/-! Per-record processing. -/

theorem markSent_sets (store : Store) (id : String) :
    ∀ s ∈ markSent store id, s.id = id → s.outbox_sent = true := by
  intro s hs hid
  rcases List.mem_map.mp hs with ⟨r, hr, rfl⟩
  by_cases h : r.id = id
  · simp [h]
  · simp only [if_neg h] at hid ⊢
    exact absurd hid h

theorem save_state_fail_eq (st : RelayState) (file : Option FileRead) :
    save_state false st file = file := rfl

theorem processRecord_attempted (env : Env) (w : RelayWorld) (r : OutboxRecord) :
    (processRecord env w r).attempted = w.attempted ++ [r.id] := by
  unfold processRecord
  by_cases hp : env.publishOk r.id <;> by_cases hu : env.updateOk r.id <;>
    simp [hp, hu]

theorem foldl_attempted (env : Env) (batch : List OutboxRecord) :
    ∀ w : RelayWorld, (batch.foldl (processRecord env) w).attempted
      = w.attempted ++ batch.map (fun r => r.id) := by
  induction batch with
  | nil => intro w; simp
  | cons r rest ih =>
    intro w
    simp only [List.foldl_cons, List.map_cons]
    rw [ih, processRecord_attempted]
    simp

/-- Claim C1: for a record of the batch, when the broker publish succeeds
and the store update succeeds, the document with that id carries
`outbox_sent = true` in the durable store, `items_processed` grows by
exactly one, `last_update` is set to the current instant, and the new
relay state is passed to `save_state` (persisted; the file then holds
its serialisation whenever the write goes through). -/
theorem processRecord_success (env : Env) (w : RelayWorld) (r : OutboxRecord)
    (hp : env.publishOk r.id = true) (hu : env.updateOk r.id = true) :
    (∀ s ∈ (processRecord env w r).store, s.id = r.id → s.outbox_sent = true) ∧
    (processRecord env w r).state.items_processed
      = w.state.items_processed + 1 ∧
    (processRecord env w r).state.last_update = some env.now ∧
    (processRecord env w r).saves
      = w.saves ++ [(processRecord env w r).state] ∧
    (env.saveOk = true →
      (processRecord env w r).file
        = some (.parsed (serializeState (processRecord env w r).state))) := by
  unfold processRecord
  simp only [hp, hu, if_true]
  refine ⟨markSent_sets _ _, trivial, trivial, trivial, ?_⟩
  intro hs
  simp [save_state, save_state_attempt, hs]

/-- Witness for C1: one unsent record, every external call succeeding.
-/
theorem processRecord_success_witness :
    (processRecord
        { publishOk := fun _ => true, updateOk := fun _ => true,
          saveOk := true, now := 7 }
        { store := [{ id := "a", title := "t", description := "d",
                      price := 1, created_at := 3, outbox_sent := false }],
          state := freshState, file := none,
          attempted := [], published := [], saves := [] }
        { id := "a", title := "t", description := "d", price := 1,
          created_at := 3, outbox_sent := false }).state.items_processed
      = freshState.items_processed + 1 :=
  (processRecord_success _ _ _ rfl rfl).2.1

/-- Claim C2: when the broker publish for a record raises, the caught
exception leaves the durable store untouched (so the record's
`outbox_sent` flag is unchanged and the record remains a candidate for
the next scan), the in-memory state (both `items_processed` and
`last_update`) unchanged, the state file unchanged, and nothing newly
published. -/
theorem processRecord_publish_failure (env : Env) (w : RelayWorld)
    (r : OutboxRecord) (hp : env.publishOk r.id = false) :
    (processRecord env w r).store = w.store ∧
    (processRecord env w r).state = w.state ∧
    (processRecord env w r).file = w.file ∧
    (processRecord env w r).published = w.published ∧
    (∀ limit, esSearchUnsent (processRecord env w r).store limit
      = esSearchUnsent w.store limit) := by
  unfold processRecord
  simp [hp]

/-- Witness for C2: one unsent record, broker publish failing. -/
theorem processRecord_publish_failure_witness :
    (processRecord
        { publishOk := fun _ => false, updateOk := fun _ => true,
          saveOk := true, now := 7 }
        { store := [{ id := "a", title := "t", description := "d",
                      price := 1, created_at := 3, outbox_sent := false }],
          state := freshState, file := none,
          attempted := [], published := [], saves := [] }
        { id := "a", title := "t", description := "d", price := 1,
          created_at := 3, outbox_sent := false }).state
      = freshState :=
  (processRecord_publish_failure _ _ _ rfl).2.1

/-- Claim C4: the ids for which the publish/mark try block runs are exactly
the ids of the scanned batch, in the batch's order, whatever the
outcomes of the publishes, store updates and state saves — a failure
on one record never aborts the processing of the records after it. -/
theorem process_outbox_attempts_whole_batch (env : Env) (limit : Nat)
    (w : RelayWorld) :
    (process_outbox env limit w).attempted
      = w.attempted ++ (esSearchUnsent w.store limit).map (fun r => r.id) :=
  foldl_attempted env _ w

/-- Claim C10: `save_state` catches every write failure, so a failing
state-file write after a successful publish-and-mark raises nothing:
the file is simply left as it was, the document stays marked sent in
the durable store, the in-memory `items_processed` stays incremented,
and the remaining records of the batch are still attempted in order.
-/
theorem save_failure_swallowed (env : Env) (w : RelayWorld)
    (r : OutboxRecord) (hp : env.publishOk r.id = true)
    (hu : env.updateOk r.id = true) (hs : env.saveOk = false) :
    (processRecord env w r).file = w.file ∧
    (∀ s ∈ (processRecord env w r).store, s.id = r.id → s.outbox_sent = true) ∧
    (processRecord env w r).state.items_processed
      = w.state.items_processed + 1 ∧
    (∀ limit, (process_outbox env limit w).attempted
      = w.attempted ++ (esSearchUnsent w.store limit).map (fun r2 => r2.id)) := by
  unfold processRecord
  simp only [hp, hu, if_true]
  refine ⟨?_, markSent_sets _ _, trivial, fun limit => foldl_attempted env _ w⟩
  simp [hs, save_state_fail_eq]

/-- Witness for C10: one unsent record, publish and update succeeding,
the state-file write failing. -/
theorem save_failure_swallowed_witness :
    (processRecord
        { publishOk := fun _ => true, updateOk := fun _ => true,
          saveOk := false, now := 7 }
        { store := [{ id := "a", title := "t", description := "d",
                      price := 1, created_at := 3, outbox_sent := false }],
          state := freshState, file := none,
          attempted := [], published := [], saves := [] }
        { id := "a", title := "t", description := "d", price := 1,
          created_at := 3, outbox_sent := false }).file = none :=
  (save_failure_swallowed _ _ _ rfl rfl rfl).1

/-! The frame property of the store across a whole poll cycle. -/

theorem recordFrame_refl (r : OutboxRecord) : recordFrame r r := by
  simp [recordFrame]

theorem recordFrame_trans {a b c : OutboxRecord}
    (h1 : recordFrame a b) (h2 : recordFrame b c) : recordFrame a c := by
  obtain ⟨i1, t1, d1, p1, c1, s1⟩ := h1
  obtain ⟨i2, t2, d2, p2, c2, s2⟩ := h2
  refine ⟨i2.trans i1, t2.trans t1, d2.trans d1, p2.trans p1, c2.trans c1, ?_⟩
  rcases s1 with h | ⟨ha, hb⟩ <;> rcases s2 with h2 | ⟨hb2, hc⟩ <;> simp_all

theorem forall2_frame_refl (l : Store) : List.Forall₂ recordFrame l l :=
  List.forall₂_same.mpr fun r _ => recordFrame_refl r

theorem forall2_frame_trans {a b c : Store}
    (h1 : List.Forall₂ recordFrame a b) (h2 : List.Forall₂ recordFrame b c) :
    List.Forall₂ recordFrame a c := by
  induction h1 generalizing c with
  | nil => cases h2; exact .nil
  | cons hab h1rest ih =>
    cases h2 with
    | cons hbc h2rest => exact .cons (recordFrame_trans hab hbc) (ih h2rest)

theorem markSent_frame (store : Store) (id : String) :
    List.Forall₂ recordFrame store (markSent store id) := by
  induction store with
  | nil => exact .nil
  | cons r rest ih =>
    refine .cons ?_ ih
    by_cases h : r.id = id <;>
      cases hr : r.outbox_sent <;> simp [recordFrame, h, hr]

theorem processRecord_store_frame (env : Env) (w : RelayWorld)
    (r : OutboxRecord) :
    List.Forall₂ recordFrame w.store (processRecord env w r).store := by
  unfold processRecord
  by_cases hp : env.publishOk r.id <;> by_cases hu : env.updateOk r.id <;>
    simp [hp, hu, forall2_frame_refl, markSent_frame,
      fun s => recordFrame_refl s]

theorem foldl_store_frame (env : Env) (batch : List OutboxRecord) :
    ∀ w : RelayWorld,
      List.Forall₂ recordFrame w.store
        ((batch.foldl (processRecord env) w).store) := by
  induction batch with
  | nil => intro w; exact forall2_frame_refl _
  | cons r rest ih =>
    intro w
    exact forall2_frame_trans (processRecord_store_frame env w r)
      (ih (processRecord env w r))

/-- Claim C5: across a whole poll cycle — the only relay operation that
writes to the durable store — the store keeps exactly the same
documents in the same positions (none created, none deleted), each
with `id`, `title`, `description`, `price`, `created_at` unchanged,
and the only field change ever applied is `outbox_sent` going from
`false` to `true`; `outbox_sent` is never written back to `false`. -/
theorem process_outbox_only_marks_sent (env : Env) (limit : Nat)
    (w : RelayWorld) :
    List.Forall₂ recordFrame w.store (process_outbox env limit w).store ∧
    (process_outbox env limit w).store.length = w.store.length :=
  ⟨foldl_store_frame env _ w, (foldl_store_frame env _ w).length_eq.symm⟩

/-- Claim C3: every batch the poll cycle's query obtains holds at most
`limit` (the `POLLING_LIMIT` bound) records, each with
`outbox_sent = false`, sorted non-decreasing in `created_at` (oldest
first); a store with no unsent record yields the empty batch rather
than an error. The query itself consumes the store and returns hits —
`esSearchUnsent` produces no new store, so obtaining the batch never
mutates it. -/
theorem esSearchUnsent_spec (store : Store) (limit : Nat) :
    (esSearchUnsent store limit).length ≤ limit ∧
    (∀ r ∈ esSearchUnsent store limit, r.outbox_sent = false) ∧
    List.Pairwise (fun a b => a.created_at ≤ b.created_at)
      (esSearchUnsent store limit) ∧
    ((∀ r ∈ store, r.outbox_sent = true) → esSearchUnsent store limit = []) := by
  refine ⟨List.length_take_le _ _, ?_, ?_, ?_⟩
  · intro r hr
    have hmem : r ∈ (store.filter fun s => s.outbox_sent = false).mergeSort
        (fun a b => a.created_at ≤ b.created_at) := List.take_subset _ _ hr
    have hf : r ∈ store.filter fun s => s.outbox_sent = false :=
      (List.mergeSort_perm _ _).subset hmem
    exact of_decide_eq_true (List.mem_filter.mp hf).2
  · have hs := @List.sorted_mergeSort OutboxRecord
      (fun a b : OutboxRecord => decide (a.created_at ≤ b.created_at))
      (fun a b c h1 h2 => by
        simp only [decide_eq_true_eq] at h1 h2 ⊢
        exact le_trans h1 h2)
      (fun a b => by
        simp only [Bool.or_eq_true, decide_eq_true_eq]
        exact Nat.le_total _ _)
      (store.filter fun s => s.outbox_sent = false)
    have hp := List.Pairwise.sublist (List.take_sublist limit
      ((store.filter fun s => s.outbox_sent = false).mergeSort
        fun a b => a.created_at ≤ b.created_at)) hs
    exact hp.imp fun h => of_decide_eq_true h
  · intro hall
    have hnil : store.filter (fun s => s.outbox_sent = false) = [] := by
      rw [List.filter_eq_nil_iff]
      intro r hr
      simp [hall r hr]
    unfold esSearchUnsent
    rw [hnil, List.mergeSort_nil, List.take_nil]

/-- Witness for C3 at a concrete store whose only record is already
sent: the batch is empty. -/
theorem esSearchUnsent_spec_witness :
    esSearchUnsent
        [{ id := "a", title := "t", description := "d", price := 1,
           created_at := 3, outbox_sent := true }] 3 = [] :=
  (esSearchUnsent_spec _ 3).2.2.2 (by decide)

/-! Lifecycle claims. -/

/-- Counterexample to claim C8: in the stop sequence of a fully started
publisher, the recurring-poll scheduler is shut down after — not
before — the broker channel is closed (it is in fact the last
operation), so the timer is not cancelled before the broker and store
handles are closed. -/
theorem stop_timer_not_cancelled_first :
    ¬ ((stop { connection := true, channel := true, exchange := true }).1.indexOf
          .shutdownScheduler
        < (stop { connection := true, channel := true, exchange := true }).1.indexOf
          .closeChannel) := by decide

/-- Claim C8 (amended): method `stop` persists the state, then closes the broker
channel, the broker connection and the store client, and shuts the
scheduler down last — the poll timer is cancelled only after the
broker and store handles are closed. -/
theorem stop_closes_handles_then_cancels_timer :
    (stop { connection := true, channel := true, exchange := true }).1
      = [.saveState, .closeChannel, .closeConnection, .closeEs,
         .shutdownScheduler] ∧
    (stop { connection := true, channel := true, exchange := true }).1.indexOf
        .closeChannel
      < (stop { connection := true, channel := true, exchange := true }).1.indexOf
        .shutdownScheduler ∧
    (stop { connection := true, channel := true, exchange := true }).1.indexOf
        .closeEs
      < (stop { connection := true, channel := true, exchange := true }).1.indexOf
        .shutdownScheduler := by decide

/-- Claim C9, evaluated at the failing input and at every other start
outcome: `stop` never completes without an uncaught fault, contrary to
the stop-safety the spec requires. When `start` raised before
assigning `self.channel` (at the broker connection or at channel
creation), `stop` raises `AttributeError` at `self.channel.close()`;
when `start` raised at `declare_exchange`, the never-started
scheduler's shutdown wrapper raises `AttributeError` on its unset
event loop; and even after a complete `start`, awaiting the `None`
returned by the synchronous `scheduler.shutdown()` raises `TypeError`.
-/
theorem stop_always_faults :
    (stop (startHandles (some .atConnect))).2 = some .attributeError ∧
    (stop (startHandles (some .atChannel))).2 = some .attributeError ∧
    (stop (startHandles (some .atDeclareExchange))).2 = some .attributeError ∧
    (stop (startHandles none)).2 = some .typeError := by
  decide

end OutboxRelay
